import Mathlib

/-!
# Gesture and transform engine of `SwiperViewComponent` (src/example/index.tsx)

A shallow embedding of the touch-classification and transform-derivation code
of the swiper-zoom-view component.  Numbers are modelled as exact rationals.
JS division of finite doubles yields a finite number exactly when the divisor
is nonzero; a zero divisor produces `Infinity` or `NaN`, which we model as
`none` of an `Option`-valued division.  The completion closure handed to the
`Animated.parallel(...).start` call is modelled as an explicit piece of state
(`pending`), since the source only ever installs one of two closures.
-/

namespace SwiperZoom

/-- 2D point in absolute coordinates (`interface Position`, index.tsx). -/
structure Position where
  x : ℚ
  y : ℚ
deriving DecidableEq

/-- Pinch midpoint and finger separation (`interface PinchInfo`, index.tsx). -/
structure PinchInfo where
  center : Position
  distance : ℚ
deriving DecidableEq

/-- `enum ChildStatus` (index.tsx). -/
inductive ChildStatus where
  | SINGLE
  | DOUBLE
  | OTHER
deriving DecidableEq

/-- `type ChildState` (index.tsx).  The TS value is a tagged union that the
handlers rebuild with object spread, so fields belonging to an inactive
variant persist across spreads; we therefore model it as a single record.
Fields that are absent from the initial JS object default to the origin / 0. -/
structure ChildState where
  status : ChildStatus
  initialPos : Position := ⟨0, 0⟩
  lastPos : Position := ⟨0, 0⟩
  initialPinch : PinchInfo := ⟨⟨0, 0⟩, 0⟩
  lastPinch : PinchInfo := ⟨⟨0, 0⟩, 0⟩
  timestamp : ℚ := 0
  lastTouch : ℚ
deriving DecidableEq

/-- The completion closures the source passes to `doChildAnimation`: the no-op
default `() => {}` and `doChildReset`'s `() => { this.childDoingZoom = false }`. -/
inductive Callback where
  | nop
  | clearZoom
deriving DecidableEq

/-- The mutable instance fields of `SwiperViewComponent` read and written by
the gesture / transform engine.  `pending` holds the completion callback of
the in-flight `Animated` convergence animation (`some` while an animation is
running and its callback has not yet fired). -/
structure SwState where
  viewPortW : ℚ
  viewPortH : ℚ
  absoluteX : ℚ
  absoluteY : ℚ
  childDoingZoom : Bool
  doingChildAnimation : Bool
  scaleTarget : ℚ
  transformBase : Position
  childState : ChildState
  pending : Option Callback
deriving DecidableEq

/-- `DOUBLE_TOUCH_THRES` (index.tsx). -/
def DOUBLE_TOUCH_THRES : ℚ := 300

/-- `MAX_ZOOM` (index.tsx). -/
def MAX_ZOOM : ℚ := 5

/-- `DEFAULT_ZOOM` (index.tsx). -/
def DEFAULT_ZOOM : ℚ := 2

/-- `MIN_ZOOM` (index.tsx). -/
def MIN_ZOOM : ℚ := 0.5

/-- `MAX_ZOOM_RESET` (index.tsx). -/
def MAX_ZOOM_RESET : ℚ := 1.3

/-- `MIN_ZOOM_RESET` (index.tsx). -/
def MIN_ZOOM_RESET : ℚ := 0

/-- `SOFT_ANIMIATION_TIME` (index.tsx, spelled as in the source). -/
def SOFT_ANIMIATION_TIME : ℚ := 300

/-- `positionMult` (index.tsx). -/
def positionMult (input : Position) (value : ℚ) : Position :=
  ⟨input.x * value, input.y * value⟩

/-- JS `/` on finite doubles: finite unless the divisor is zero, in which case
the result is `Infinity` or `NaN`; both non-finite outcomes are `none`. -/
def jsDiv (a b : ℚ) : Option ℚ :=
  if b = 0 then none else some (a / b)

/-- `centerPosition` (index.tsx). -/
def centerPosition (s : SwState) : Position :=
  ⟨s.viewPortW / 2, s.viewPortH / 2⟩

/-- `getCenterDisposition` (index.tsx). -/
def getCenterDisposition (s : SwState) (pos : Position) : Position :=
  ⟨pos.x - (centerPosition s).x, pos.y - (centerPosition s).y⟩

/-- `doChangeScale` (index.tsx).  Updates the target scale multiplicatively and
the target translation by the given delta plus the pivot correction term. -/
def doChangeScale (s : SwState) (updateDisposition : Position) (updateScale : ℚ)
    (updateCenter : Option Position) : SwState :=
  let newScale := s.scaleTarget * updateScale
  let origDisposition := s.transformBase
  let centerToCenterDisposition : Position :=
    match updateCenter with
    | some c => ⟨c.x - origDisposition.x, c.y - origDisposition.y⟩
    | none => ⟨0, 0⟩
  let newDisposition := positionMult updateDisposition 1
  let newCenterDisposition := positionMult centerToCenterDisposition (1 - updateScale)
  { s with
    transformBase := ⟨origDisposition.x + newDisposition.x + newCenterDisposition.x,
                      origDisposition.y + newDisposition.y + newCenterDisposition.y⟩,
    scaleTarget := newScale }

/-- Run one of the two completion closures of the source. -/
def runCallback (cb : Callback) (s : SwState) : SwState :=
  match cb with
  | Callback.nop => s
  | Callback.clearZoom => { s with childDoingZoom := false }

/-- `stopAnimation()` on the in-flight animation (the `override` branch of
`doChildAnimation`).  React Native invokes a stopped animation's `start`
callback with `finished: false`; the closure the source installs ignores that
flag, so stopping runs `callback()` and then clears `doingChildAnimation`. -/
def stopPending (s : SwState) : SwState :=
  match s.pending with
  | some cb => { runCallback cb s with doingChildAnimation := false, pending := none }
  | none => s

/-- `doChildAnimation` (index.tsx): the shared bounds-and-animate step.
Starting the `Animated.parallel` installs the completion closure as the
pending callback; the `timing` duration does not affect the target state. -/
def doChildAnimation (s : SwState) (timing : ℚ) (cb : Callback) (override : Bool) :
    SwState :=
  if s.doingChildAnimation = true ∧ override = false then s
  else
    let s1 := if override then stopPending s else s
    let s2 := { s1 with doingChildAnimation := true, childDoingZoom := true }
    let boundScaleTarget := max (min s2.scaleTarget MAX_ZOOM) MIN_ZOOM
    let s3 := { s2 with scaleTarget := boundScaleTarget }
    let maxX := s3.viewPortW * |1 - boundScaleTarget| / 2
    let maxY := s3.viewPortH * |1 - boundScaleTarget| / 2
    { s3 with
      transformBase := ⟨max (min s3.transformBase.x maxX) (-maxX),
                        max (min s3.transformBase.y maxY) (-maxY)⟩,
      pending := some cb }

/-- `doChildReset` (index.tsx). -/
def doChildReset (s : SwState) (timing : ℚ) : SwState :=
  let s1 := { s with scaleTarget := 1, transformBase := ⟨0, 0⟩ }
  doChildAnimation s1 timing Callback.clearZoom true

/-- `doChildDoubleTouch` (index.tsx). -/
def doChildDoubleTouch (s : SwState) (secondTouch : Position) (timediff : ℚ) :
    SwState :=
  if s.childDoingZoom = false then
    let center := getCenterDisposition s secondTouch
    let s1 := doChangeScale s ⟨0, 0⟩ DEFAULT_ZOOM (some center)
    doChildAnimation s1 SOFT_ANIMIATION_TIME Callback.nop true
  else
    doChildReset s SOFT_ANIMIATION_TIME

/-- `doChildPinchMove` (index.tsx).  The ratio is the raw JS division
`next.distance / prev.distance`; the result is `none` when a zero previous
distance makes the ratio non-finite. -/
def doChildPinchMove (s : SwState) (prev next : PinchInfo) (timeDiff : ℚ) :
    Option SwState :=
  let newDisposition : Position :=
    ⟨next.center.x - prev.center.x, next.center.y - prev.center.y⟩
  (jsDiv next.distance prev.distance).map fun updateScale =>
    let s1 := doChangeScale s newDisposition updateScale
      (some (getCenterDisposition s prev.center))
    doChildAnimation s1 timeDiff Callback.nop false

/-- `doChildMove` (index.tsx). -/
def doChildMove (s : SwState) (prev next : Position) (timeDiff : ℚ) : SwState :=
  if s.childDoingZoom = true ∧ s.scaleTarget ≠ 1 then
    let s1 := doChangeScale s ⟨next.x - prev.x, next.y - prev.y⟩ 1 none
    doChildAnimation s1 timeDiff Callback.nop false
  else
    s

/-- `doChildStateChange` (index.tsx).  The source mutates
`this.childState.lastTouch` on the record it is about to discard and then
executes `this.childState = to`; every caller passes a freshly spread copy,
so the record adopted at the end is exactly the argument.  (The `scrollToIndex` call
on the flat list in the `DOUBLE` branch is outside the modelled state.) -/
def doChildStateChange (s : SwState) (toSt : ChildState) : SwState :=
  let s1 :=
    if s.childState.status ≠ toSt.status ∧ toSt.status ≠ ChildStatus.SINGLE then
      { s with childState := { s.childState with lastTouch := 0 } }
    else s
  let s2 :=
    if s1.childState.status ≠ toSt.status ∧ toSt.status = ChildStatus.DOUBLE then
      { s1 with childDoingZoom := true }
    else s1
  { s2 with childState := toSt }

/-- The parts of a `GestureResponderEvent` the modelled handlers read. -/
structure TouchEvent where
  timeStamp : ℚ
  pageX : ℚ
  pageY : ℚ
  touches : List Position
deriving DecidableEq

/-- `onStartTouchResponder` (index.tsx). -/
def onStartTouchResponder (s : SwState) (ev : TouchEvent) : SwState :=
  let timediff := ev.timeStamp - s.childState.lastTouch
  let newPos : Position := ⟨ev.pageX - s.absoluteX, ev.pageY - s.absoluteY⟩
  if timediff < DOUBLE_TOUCH_THRES then
    let s1 := { s with childState := { s.childState with lastTouch := 0 } }
    if s1.childState.status ≠ ChildStatus.SINGLE then
      doChildDoubleTouch s1 newPos timediff
    else s1
  else
    let s1 := { s with childState := { s.childState with lastTouch := ev.timeStamp } }
    doChildStateChange s1
      { s1.childState with
        initialPos := newPos, lastPos := newPos,
        timestamp := ev.timeStamp, status := ChildStatus.SINGLE }

/-- `onResponderRelease` (index.tsx). -/
def onResponderRelease (s : SwState) : SwState :=
  let s1 := doChildStateChange s { s.childState with status := ChildStatus.OTHER }
  if MIN_ZOOM_RESET < s1.scaleTarget ∧ s1.scaleTarget < MAX_ZOOM_RESET then
    doChildReset s1 SOFT_ANIMIATION_TIME
  else s1

/-- `onResponderReject` (index.tsx). -/
def onResponderReject (s : SwState) : SwState :=
  doChildStateChange s { s.childState with status := ChildStatus.OTHER }

/-- `onResponderTerminate` (index.tsx). -/
def onResponderTerminate (s : SwState) : SwState :=
  doChildStateChange s { s.childState with status := ChildStatus.OTHER }

/-- `onStartShouldSetResponder` (index.tsx): returns the post-state of its side
effects together with the claim decision. -/
def onStartShouldSetResponder (s : SwState) (ev : TouchEvent) : SwState × Bool :=
  let ret := s.childDoingZoom
  let s1 :=
    if ret = false ∧ ev.touches.length = 1 then onStartTouchResponder s ev else s
  let s2 := doChildStateChange s1 { s1.childState with status := ChildStatus.OTHER }
  (s2, ret)

/-- `onMoveShouldSetResponder` (index.tsx). -/
def onMoveShouldSetResponder (s : SwState) (ev : TouchEvent) : SwState × Bool :=
  (s, s.childDoingZoom || decide (ev.touches.length > 1))

/-- `onResponderTerminationRequest` (index.tsx). -/
def onResponderTerminationRequest (s : SwState) (ev : TouchEvent) : SwState × Bool :=
  (s, !(s.childDoingZoom || decide (ev.touches.length > 1)))

/-- `onStartShouldSetResponderCapture` (index.tsx). -/
def onStartShouldSetResponderCapture (s : SwState) (ev : TouchEvent) : SwState × Bool :=
  (s, s.childDoingZoom || decide (ev.touches.length > 1))

/-- `onMoveShouldSetResponderCapture` (index.tsx). -/
def onMoveShouldSetResponderCapture (s : SwState) (ev : TouchEvent) : SwState × Bool :=
  (s, s.childDoingZoom || decide (ev.touches.length > 1))

/-- `lastIndex` (index.tsx). -/
def lastIndex {α : Type} (data : List α) : Int :=
  let maxLength : Int := data.length
  if maxLength > 0 then maxLength - 1 else maxLength

/-- Screen position, relative to the viewport center, of a content point `q`
(also relative to the center) under the render transform
`[translateX, translateY, scale]` of `wrapRenderItem` (index.tsx): the listed
transforms compose so that `q` is scaled about the view center and then
translated by the animated translation. -/
def screenPos (scale : ℚ) (translation : Position) (q : Position) : Position :=
  ⟨translation.x + scale * q.x, translation.y + scale * q.y⟩

/-- The engine state established by the constructor for a viewport of the
given size: neutral transform, no gesture, no animation. -/
def initialState (w h : ℚ) : SwState :=
  { viewPortW := w, viewPortH := h, absoluteX := 0, absoluteY := 0,
    childDoingZoom := false, doingChildAnimation := false,
    scaleTarget := 1, transformBase := ⟨0, 0⟩,
    childState := { status := ChildStatus.OTHER, lastTouch := 0 },
    pending := none }

/-! ## Shared frame lemmas -/

/-- Stopping the in-flight animation never touches the scale target. -/
theorem stopPending_scaleTarget (s : SwState) :
    (stopPending s).scaleTarget = s.scaleTarget := by
  cases h : s.pending with
  | none => simp [stopPending, h]
  | some cb => cases cb <;> simp [stopPending, runCallback, h]

/-- Stopping the in-flight animation never touches the translation target. -/
theorem stopPending_transformBase (s : SwState) :
    (stopPending s).transformBase = s.transformBase := by
  cases h : s.pending with
  | none => simp [stopPending, h]
  | some cb => cases cb <;> simp [stopPending, runCallback, h]

/-- Stopping the in-flight animation never touches the viewport width. -/
theorem stopPending_viewPortW (s : SwState) :
    (stopPending s).viewPortW = s.viewPortW := by
  cases h : s.pending with
  | none => simp [stopPending, h]
  | some cb => cases cb <;> simp [stopPending, runCallback, h]

/-- Stopping the in-flight animation never touches the viewport height. -/
theorem stopPending_viewPortH (s : SwState) :
    (stopPending s).viewPortH = s.viewPortH := by
  cases h : s.pending with
  | none => simp [stopPending, h]
  | some cb => cases cb <;> simp [stopPending, runCallback, h]

/-- Stopping the in-flight animation never touches the gesture state. -/
theorem stopPending_childState (s : SwState) :
    (stopPending s).childState = s.childState := by
  cases h : s.pending with
  | none => simp [stopPending, h]
  | some cb => cases cb <;> simp [stopPending, runCallback, h]

/-- The bounds-and-animate step never touches the gesture state. -/
theorem doChildAnimation_childState (s : SwState) (timing : ℚ) (cb : Callback)
    (override : Bool) :
    (doChildAnimation s timing cb override).childState = s.childState := by
  unfold doChildAnimation
  split
  · rfl
  · cases override <;> simp [stopPending_childState]

/-- The state-transition reconciliation adopts exactly the record it is given. -/
theorem doChildStateChange_childState (s : SwState) (t : ChildState) :
    (doChildStateChange s t).childState = t := by
  simp only [doChildStateChange]

/-- The state-transition reconciliation never touches the scale target. -/
theorem doChildStateChange_scaleTarget (s : SwState) (t : ChildState) :
    (doChildStateChange s t).scaleTarget = s.scaleTarget := by
  simp only [doChildStateChange]
  split <;> split <;> rfl

/-- The state-transition reconciliation never touches the translation target. -/
theorem doChildStateChange_transformBase (s : SwState) (t : ChildState) :
    (doChildStateChange s t).transformBase = s.transformBase := by
  simp only [doChildStateChange]
  split <;> split <;> rfl

/-- The state-transition reconciliation never starts or stops an animation. -/
theorem doChildStateChange_pending (s : SwState) (t : ChildState) :
    (doChildStateChange s t).pending = s.pending := by
  simp only [doChildStateChange]
  split <;> split <;> rfl

/-- Clamping a value between `lo ≤ hi` lands in `[lo, hi]`. -/
theorem clamp_mem {x lo hi : ℚ} (h : lo ≤ hi) :
    lo ≤ max (min x hi) lo ∧ max (min x hi) lo ≤ hi :=
  ⟨le_max_right _ _, max_le (min_le_right _ _) h⟩

/-- Clamping into a symmetric interval of nonnegative radius bounds the
absolute value by the radius. -/
theorem abs_clamp_le {x m : ℚ} (hm : 0 ≤ m) :
    |max (min x m) (-m)| ≤ m :=
  abs_le.mpr ⟨le_max_right _ _, max_le (min_le_right _ _) (neg_le_self hm)⟩

/-- A value already inside the symmetric interval is left unchanged by the
clamp. -/
theorem clamp_eq_self {x m : ℚ} (h : |x| ≤ m) :
    max (min x m) (-m) = x := by
  rcases abs_le.mp h with ⟨h1, h2⟩
  rw [min_eq_left h2, max_eq_left h1]

/-! ## Claims -/

/-- Claim C10: for every data array, `lastIndex` returns `length - 1` on a
non-empty array and `0` on an empty one, and the returned index is never
negative. -/
theorem claim10_lastIndex {α : Type} (data : List α) :
    (data ≠ [] → lastIndex data = (data.length : Int) - 1) ∧
    (data = [] → lastIndex data = 0) ∧
    0 ≤ lastIndex data := by
  refine ⟨?_, ?_, ?_⟩
  · intro h
    have hlen : 0 < data.length := List.length_pos.mpr h
    simp only [lastIndex]
    rw [if_pos (by exact_mod_cast hlen)]
  · intro h
    subst h
    rfl
  · simp only [lastIndex]
    split
    · omega
    · omega

/-- Witness for C10 at the concrete array `[7, 8, 9]`. -/
theorem claim10_witness :
    ([7, 8, 9] ≠ ([] : List Nat)) ∧ lastIndex [7, 8, 9] = (2 : Int) :=
  ⟨by decide, (claim10_lastIndex [7, 8, 9]).1 (by decide)⟩

/-- Claim C3 (code bug): `doChildPinchMove` computes the scale ratio as the
unguarded JS division `next.distance / prev.distance`.  At a previous pinch
distance of `0` the ratio is non-finite (modelled `none`) rather than the
claimed no-op ratio `1`: the whole frame produces a non-finite scale instead
of leaving the scale unchanged. -/
theorem claim3_div_zero :
    doChildPinchMove (initialState 300 300) ⟨⟨150, 150⟩, 0⟩ ⟨⟨160, 150⟩, 100⟩ (-16)
      = none ∧
    jsDiv 100 0 = none ∧
    jsDiv 0 0 = none := by
  refine ⟨?_, by decide, by decide⟩
  simp [doChildPinchMove, jsDiv]

/-- Claim C8 (code bug): `doChildStateChange` assigns `lastTouch = 0` to the
gesture-state record it is about to discard and then adopts the caller's
spread copy wholesale, so after a `SINGLE → OTHER` transition the held state
still carries the old `lastTouch` (here 1000) instead of the claimed 0. -/
theorem claim8_lastTouch :
    (doChildStateChange
        { initialState 300 300 with
          childState := { status := ChildStatus.SINGLE, lastTouch := 1000 } }
        { status := ChildStatus.OTHER, lastTouch := 1000 }).childState.status
      = ChildStatus.OTHER ∧
    (doChildStateChange
        { initialState 300 300 with
          childState := { status := ChildStatus.SINGLE, lastTouch := 1000 } }
        { status := ChildStatus.OTHER, lastTouch := 1000 }).childState.lastTouch
      = 1000 ∧
    (1000 : ℚ) ≠ 0 := by
  refine ⟨by decide, by decide, by decide⟩

/-- Claim C9 (code bug): the completion closure installed by `doChildAnimation`
checks no animation generation.  With a reset animation in flight (pending
callback `clearZoom`), the `stopAnimation` performed by the next overriding
`doChildAnimation` fires that stale callback (React Native invokes it with
`finished: false`, a flag the closure ignores): the superseded animation's
callback runs its side effect, clearing both "zoom in progress" and
"animation running", and the overriding call then factors through exactly
that stale-fire step. -/
theorem claim9_stale :
    (doChildReset { initialState 300 300 with childDoingZoom := true, scaleTarget := 2 }
        SOFT_ANIMIATION_TIME).pending = some Callback.clearZoom ∧
    (doChildReset { initialState 300 300 with childDoingZoom := true, scaleTarget := 2 }
        SOFT_ANIMIATION_TIME).childDoingZoom = true ∧
    (stopPending (doChildReset
        { initialState 300 300 with childDoingZoom := true, scaleTarget := 2 }
        SOFT_ANIMIATION_TIME)).childDoingZoom = false ∧
    (stopPending (doChildReset
        { initialState 300 300 with childDoingZoom := true, scaleTarget := 2 }
        SOFT_ANIMIATION_TIME)).doingChildAnimation = false ∧
    doChildAnimation (doChildReset
        { initialState 300 300 with childDoingZoom := true, scaleTarget := 2 }
        SOFT_ANIMIATION_TIME) SOFT_ANIMIATION_TIME Callback.nop true
      = doChildAnimation (stopPending (doChildReset
          { initialState 300 300 with childDoingZoom := true, scaleTarget := 2 }
          SOFT_ANIMIATION_TIME)) SOFT_ANIMIATION_TIME Callback.nop true := by
  norm_num [doChildAnimation, doChildReset, doChildDoubleTouch, doChangeScale, doChildPinchMove, stopPending, runCallback, getCenterDisposition, centerPosition, positionMult, jsDiv, initialState, onResponderRelease, onResponderTerminate, onResponderReject, onStartShouldSetResponder, onStartTouchResponder, doChildStateChange, MAX_ZOOM, MIN_ZOOM, DEFAULT_ZOOM, SOFT_ANIMIATION_TIME, MAX_ZOOM_RESET, MIN_ZOOM_RESET, DOUBLE_TOUCH_THRES]

/-- Counterexample to claim C6: with target scale 1 (inside the reset window
`(0, 1.3)`) and translation `(5, 5)`, the terminate and reject callbacks force
the gesture state to Other but do **not** invoke the animated reset: the
translation stays `(5, 5)` and no animation is installed, while the reset the
claim requires would zero the translation.  Only the release callback resets. -/
theorem claim6_cex :
    MIN_ZOOM_RESET
        < ({ initialState 300 300 with transformBase := ⟨5, 5⟩ } : SwState).scaleTarget ∧
    ({ initialState 300 300 with transformBase := ⟨5, 5⟩ } : SwState).scaleTarget
        < MAX_ZOOM_RESET ∧
    (onResponderTerminate
        { initialState 300 300 with transformBase := ⟨5, 5⟩ }).transformBase = ⟨5, 5⟩ ∧
    (onResponderTerminate
        { initialState 300 300 with transformBase := ⟨5, 5⟩ }).pending = none ∧
    (onResponderReject
        { initialState 300 300 with transformBase := ⟨5, 5⟩ }).transformBase = ⟨5, 5⟩ ∧
    (onResponderReject
        { initialState 300 300 with transformBase := ⟨5, 5⟩ }).pending = none ∧
    (doChildReset (onResponderTerminate
        { initialState 300 300 with transformBase := ⟨5, 5⟩ })
        SOFT_ANIMIATION_TIME).transformBase = ⟨0, 0⟩ ∧
    (onResponderRelease
        { initialState 300 300 with transformBase := ⟨5, 5⟩ }).transformBase = ⟨0, 0⟩ := by
  norm_num [doChildAnimation, doChildReset, doChildDoubleTouch, doChangeScale, doChildPinchMove, stopPending, runCallback, getCenterDisposition, centerPosition, positionMult, jsDiv, initialState, onResponderRelease, onResponderTerminate, onResponderReject, onStartShouldSetResponder, onStartTouchResponder, doChildStateChange, MAX_ZOOM, MIN_ZOOM, DEFAULT_ZOOM, SOFT_ANIMIATION_TIME, MAX_ZOOM_RESET, MIN_ZOOM_RESET, DOUBLE_TOUCH_THRES]

/-- Counterexample to claim C7: on a two-touch event while zoom is not in
progress, the claimed formula `zoom ∨ touches > 1` is `true`, but
`onStartShouldSetResponder` returns only `childDoingZoom`, i.e. `false`; and
on a fresh single-touch event the same callback is impure, mutating the
gesture state before returning. -/
theorem claim7_cex :
    (onStartShouldSetResponder (initialState 300 300)
        { timeStamp := 0, pageX := 0, pageY := 0, touches := [⟨0, 0⟩, ⟨0, 0⟩] }).2
      = false ∧
    (initialState 300 300).childDoingZoom = false ∧
    ({ timeStamp := 0, pageX := 0, pageY := 0,
       touches := [⟨0, 0⟩, ⟨0, 0⟩] } : TouchEvent).touches.length > 1 ∧
    (onStartShouldSetResponder (initialState 300 300)
        { timeStamp := 400, pageX := 10, pageY := 10, touches := [⟨10, 10⟩] }).1
      ≠ initialState 300 300 := by
  norm_num [doChildAnimation, doChildReset, doChildDoubleTouch, doChangeScale, doChildPinchMove, stopPending, runCallback, getCenterDisposition, centerPosition, positionMult, jsDiv, initialState, onResponderRelease, onResponderTerminate, onResponderReject, onStartShouldSetResponder, onStartTouchResponder, doChildStateChange, MAX_ZOOM, MIN_ZOOM, DEFAULT_ZOOM, SOFT_ANIMIATION_TIME, MAX_ZOOM_RESET, MIN_ZOOM_RESET, DOUBLE_TOUCH_THRES]

/-- Counterexample to claim C2: a reachable trace — double-tap zoom to scale 2
(animation now in flight), then a pinch-move with ratio 10 — leaves the target
scale at 20 after the `doChildAnimation` call that ends `doChildPinchMove`:
that call arrives while an animation is running with `override = false`, so it
returns without clamping and the target scale stays far outside `[0.5, 5]`. -/
theorem claim2_cex :
    ((doChildPinchMove (doChildDoubleTouch (initialState 300 300) ⟨150, 150⟩ 0)
        ⟨⟨150, 150⟩, 10⟩ ⟨⟨150, 150⟩, 100⟩ (-16)).map
        (fun s2 => s2.scaleTarget) = some 20) ∧
    ¬((20 : ℚ) ≤ MAX_ZOOM) ∧
    (doChildDoubleTouch (initialState 300 300) ⟨150, 150⟩ 0).doingChildAnimation
      = true ∧
    doChildAnimation
        (doChangeScale (doChildDoubleTouch (initialState 300 300) ⟨150, 150⟩ 0)
          ⟨0, 0⟩ 10 (some ⟨0, 0⟩)) (-16) Callback.nop false
      = doChangeScale (doChildDoubleTouch (initialState 300 300) ⟨150, 150⟩ 0)
          ⟨0, 0⟩ 10 (some ⟨0, 0⟩) := by
  norm_num [doChildAnimation, doChildReset, doChildDoubleTouch, doChangeScale, doChildPinchMove, stopPending, runCallback, getCenterDisposition, centerPosition, positionMult, jsDiv, initialState, onResponderRelease, onResponderTerminate, onResponderReject, onStartShouldSetResponder, onStartTouchResponder, doChildStateChange, MAX_ZOOM, MIN_ZOOM, DEFAULT_ZOOM, SOFT_ANIMIATION_TIME, MAX_ZOOM_RESET, MIN_ZOOM_RESET, DOUBLE_TOUCH_THRES]

/-- Componentwise characterisation of `Position` equality. -/
theorem positionExt {a b : Position} (hx : a.x = b.x) (hy : a.y = b.y) : a = b := by
  cases a; cases b; simp_all

/-- `doChangeScale` never touches the gesture state. -/
theorem doChangeScale_childState (s : SwState) (d : Position) (r : ℚ)
    (c : Option Position) : (doChangeScale s d r c).childState = s.childState := rfl

/-- `doChildReset` never touches the gesture state. -/
theorem doChildReset_childState (s : SwState) (timing : ℚ) :
    (doChildReset s timing).childState = s.childState := by
  unfold doChildReset
  rw [doChildAnimation_childState]

/-- `doChildDoubleTouch` never touches the gesture state. -/
theorem doChildDoubleTouch_childState (s : SwState) (p : Position) (td : ℚ) :
    (doChildDoubleTouch s p td).childState = s.childState := by
  unfold doChildDoubleTouch
  split
  · rw [doChildAnimation_childState, doChangeScale_childState]
  · rw [doChildReset_childState]

/-- When the animation-running guard passes, `doChildAnimation` clamps the
target scale into `[MIN_ZOOM, MAX_ZOOM]` and each translation component into
the symmetric interval of radius `dimension * |1 - boundScale| / 2`. -/
theorem doChildAnimation_run (s : SwState) (timing : ℚ) (cb : Callback) (override : Bool)
    (hguard : ¬(s.doingChildAnimation = true ∧ override = false)) :
    (doChildAnimation s timing cb override).scaleTarget
        = max (min s.scaleTarget MAX_ZOOM) MIN_ZOOM ∧
    (doChildAnimation s timing cb override).transformBase.x
        = max (min s.transformBase.x
              (s.viewPortW * |1 - max (min s.scaleTarget MAX_ZOOM) MIN_ZOOM| / 2))
            (-(s.viewPortW * |1 - max (min s.scaleTarget MAX_ZOOM) MIN_ZOOM| / 2)) ∧
    (doChildAnimation s timing cb override).transformBase.y
        = max (min s.transformBase.y
              (s.viewPortH * |1 - max (min s.scaleTarget MAX_ZOOM) MIN_ZOOM| / 2))
            (-(s.viewPortH * |1 - max (min s.scaleTarget MAX_ZOOM) MIN_ZOOM| / 2)) := by
  unfold doChildAnimation
  rw [if_neg hguard]
  cases override with
  | false => simp
  | true =>
      simp [stopPending_scaleTarget, stopPending_transformBase, stopPending_viewPortW,
        stopPending_viewPortH]

/-- Claim C1: `doChangeScale` with a pivot multiplies the target scale by the
ratio and adds `delta + (pivot - translation) * (1 - ratio)` to the target
translation; consequently a content pixel sitting under screen position `p`
moves only by the translation delta (pivot invariance of the scale change),
and the concrete 300x300-viewport pinch from distance 100 to 200 at the
viewport center takes the target from scale 1, translation `(0,0)` to scale
2, translation `(0,0)`. -/
theorem claim1_changeScale_pivot (s : SwState) (d : Position) (r : ℚ) (p q : Position)
    (t : ℚ) :
    (doChangeScale s d r (some p)).scaleTarget = s.scaleTarget * r ∧
    (doChangeScale s d r (some p)).transformBase =
      ⟨s.transformBase.x + d.x + (p.x - s.transformBase.x) * (1 - r),
       s.transformBase.y + d.y + (p.y - s.transformBase.y) * (1 - r)⟩ ∧
    (screenPos s.scaleTarget s.transformBase q = p →
      screenPos (doChangeScale s d r (some p)).scaleTarget
        (doChangeScale s d r (some p)).transformBase q = ⟨p.x + d.x, p.y + d.y⟩) ∧
    (doChildPinchMove (initialState 300 300) ⟨⟨150, 150⟩, 100⟩ ⟨⟨150, 150⟩, 200⟩ t).map
        (fun s2 => (s2.scaleTarget, s2.transformBase)) = some (2, ⟨0, 0⟩) := by
  refine ⟨rfl, ?_, ?_, ?_⟩
  · simp only [doChangeScale, positionMult]
    exact positionExt (by ring) (by ring)
  · intro hq
    have hx : s.transformBase.x + s.scaleTarget * q.x = p.x := by
      have h := congrArg Position.x hq
      simpa [screenPos] using h
    have hy : s.transformBase.y + s.scaleTarget * q.y = p.y := by
      have h := congrArg Position.y hq
      simpa [screenPos] using h
    simp only [doChangeScale, positionMult, screenPos]
    refine positionExt ?_ ?_
    · show s.transformBase.x + d.x * 1 + (p.x - s.transformBase.x) * (1 - r)
        + s.scaleTarget * r * q.x = p.x + d.x
      rw [← hx]; ring
    · show s.transformBase.y + d.y * 1 + (p.y - s.transformBase.y) * (1 - r)
        + s.scaleTarget * r * q.y = p.y + d.y
      rw [← hy]; ring
  · norm_num [doChildPinchMove, jsDiv, doChangeScale, doChildAnimation, getCenterDisposition,
      centerPosition, positionMult, initialState, MAX_ZOOM, MIN_ZOOM]

/-- Witness for C1 at scale 1, translation `(0,0)`, delta `(3,4)`, ratio 2,
pivot `(10,0)`: the pixel under `(10,0)` lands at `(10+3, 0+4)`. -/
theorem claim1_witness :
    screenPos (initialState 300 300).scaleTarget (initialState 300 300).transformBase
      ⟨10, 0⟩ = ⟨10, 0⟩ ∧
    screenPos (doChangeScale (initialState 300 300) ⟨3, 4⟩ 2 (some ⟨10, 0⟩)).scaleTarget
      (doChangeScale (initialState 300 300) ⟨3, 4⟩ 2 (some ⟨10, 0⟩)).transformBase
      ⟨10, 0⟩ = ⟨10 + 3, 0 + 4⟩ :=
  ⟨by norm_num [screenPos, initialState],
    (claim1_changeScale_pivot (initialState 300 300) ⟨3, 4⟩ 2 ⟨10, 0⟩ ⟨10, 0⟩ 0).2.2.1
      (by norm_num [screenPos, initialState])⟩

/-- Claim C2 (amended): after every `doChildAnimation` call that passes the
animation-running guard (no animation in flight, or `override` true), given
nonnegative viewport dimensions, the target scale lies within `[0.5, 5]` and
each translation component has magnitude at most
`viewport dimension * |1 - scale| / 2`. -/
theorem claim2_bounds (s : SwState) (timing : ℚ) (cb : Callback) (override : Bool)
    (hrun : s.doingChildAnimation = false ∨ override = true)
    (hw : 0 ≤ s.viewPortW) (hh : 0 ≤ s.viewPortH) :
    MIN_ZOOM ≤ (doChildAnimation s timing cb override).scaleTarget ∧
    (doChildAnimation s timing cb override).scaleTarget ≤ MAX_ZOOM ∧
    |(doChildAnimation s timing cb override).transformBase.x|
      ≤ s.viewPortW * |1 - (doChildAnimation s timing cb override).scaleTarget| / 2 ∧
    |(doChildAnimation s timing cb override).transformBase.y|
      ≤ s.viewPortH * |1 - (doChildAnimation s timing cb override).scaleTarget| / 2 := by
  have hguard : ¬(s.doingChildAnimation = true ∧ override = false) := by
    rcases hrun with h | h <;> simp [h]
  obtain ⟨hsc, hbx, hby⟩ := doChildAnimation_run s timing cb override hguard
  have hminmax : MIN_ZOOM ≤ MAX_ZOOM := by norm_num [MIN_ZOOM, MAX_ZOOM]
  have hmx : 0 ≤ s.viewPortW * |1 - max (min s.scaleTarget MAX_ZOOM) MIN_ZOOM| / 2 :=
    div_nonneg (mul_nonneg hw (abs_nonneg _)) (by norm_num)
  have hmy : 0 ≤ s.viewPortH * |1 - max (min s.scaleTarget MAX_ZOOM) MIN_ZOOM| / 2 :=
    div_nonneg (mul_nonneg hh (abs_nonneg _)) (by norm_num)
  refine ⟨?_, ?_, ?_, ?_⟩
  · rw [hsc]; exact (clamp_mem hminmax).1
  · rw [hsc]; exact (clamp_mem hminmax).2
  · rw [hbx, hsc]; exact abs_clamp_le hmx
  · rw [hby, hsc]; exact abs_clamp_le hmy

/-- A target far outside the bounds, used to witness the clamping claim. -/
def stateC2 : SwState :=
  { initialState 300 300 with scaleTarget := 100, transformBase := ⟨10000, -10000⟩ }

/-- Witness for C2 at a wildly out-of-bounds target (scale 100, translation
`(10000, -10000)`) with an overriding call on a 300x300 viewport. -/
theorem claim2_witness :
    (0 : ℚ) ≤ stateC2.viewPortW ∧
    (MIN_ZOOM ≤ (doChildAnimation stateC2 16 Callback.nop true).scaleTarget ∧
      (doChildAnimation stateC2 16 Callback.nop true).scaleTarget ≤ MAX_ZOOM ∧
      |(doChildAnimation stateC2 16 Callback.nop true).transformBase.x|
        ≤ stateC2.viewPortW
          * |1 - (doChildAnimation stateC2 16 Callback.nop true).scaleTarget| / 2 ∧
      |(doChildAnimation stateC2 16 Callback.nop true).transformBase.y|
        ≤ stateC2.viewPortH
          * |1 - (doChildAnimation stateC2 16 Callback.nop true).scaleTarget| / 2) :=
  ⟨by norm_num [stateC2, initialState],
    claim2_bounds stateC2 16 Callback.nop true (Or.inr rfl)
      (by norm_num [stateC2, initialState]) (by norm_num [stateC2, initialState])⟩

/-- Claim C5: `doChildMove` is a strict no-op (state returned unchanged, no
animation started) unless zoom is in progress and the target scale differs
from 1; in that case it is the `changeScale` with delta `next - prev`, ratio
1 and no pivot, followed by the animate step: the scale is unchanged and the
translation target moves by exactly `next - prev`. -/
theorem claim5_move (s : SwState) (prev next : Position) (dt : ℚ) :
    (¬(s.childDoingZoom = true ∧ s.scaleTarget ≠ 1) → doChildMove s prev next dt = s) ∧
    (s.childDoingZoom = true → s.scaleTarget ≠ 1 →
      doChildMove s prev next dt =
        doChildAnimation (doChangeScale s ⟨next.x - prev.x, next.y - prev.y⟩ 1 none) dt
          Callback.nop false ∧
      (doChangeScale s ⟨next.x - prev.x, next.y - prev.y⟩ 1 none).scaleTarget
        = s.scaleTarget ∧
      (doChangeScale s ⟨next.x - prev.x, next.y - prev.y⟩ 1 none).transformBase
        = ⟨s.transformBase.x + (next.x - prev.x),
           s.transformBase.y + (next.y - prev.y)⟩) := by
  constructor
  · intro h
    unfold doChildMove
    rw [if_neg h]
  · intro hz h1
    refine ⟨?_, ?_, ?_⟩
    · unfold doChildMove
      rw [if_pos ⟨hz, h1⟩]
    · simp [doChangeScale]
    · simp only [doChangeScale, positionMult]
      exact positionExt (by ring) (by ring)

/-- Witness for C5: a `(10,0)` drag at the neutral state (zoom not in
progress) leaves the state untouched. -/
theorem claim5_witness :
    doChildMove (initialState 300 300) ⟨0, 0⟩ ⟨10, 0⟩ 16 = initialState 300 300 :=
  (claim5_move (initialState 300 300) ⟨0, 0⟩ ⟨10, 0⟩ 16).1 (by norm_num [initialState])

/-- Claim C6 (amended): all three responder lifecycle callbacks force the
gesture state to Other, but only `onResponderRelease` follows with the
conditional animated reset when the target scale lies strictly inside
`(MIN_ZOOM_RESET, MAX_ZOOM_RESET)`; terminate and reject perform only the
state transition and start no animation. -/
theorem claim6_lifecycle (s : SwState) :
    (onResponderRelease s).childState.status = ChildStatus.OTHER ∧
    (onResponderTerminate s).childState.status = ChildStatus.OTHER ∧
    (onResponderReject s).childState.status = ChildStatus.OTHER ∧
    (MIN_ZOOM_RESET < s.scaleTarget ∧ s.scaleTarget < MAX_ZOOM_RESET →
      onResponderRelease s
        = doChildReset
            (doChildStateChange s { s.childState with status := ChildStatus.OTHER })
            SOFT_ANIMIATION_TIME) ∧
    (¬(MIN_ZOOM_RESET < s.scaleTarget ∧ s.scaleTarget < MAX_ZOOM_RESET) →
      onResponderRelease s
        = doChildStateChange s { s.childState with status := ChildStatus.OTHER }) ∧
    onResponderTerminate s
      = doChildStateChange s { s.childState with status := ChildStatus.OTHER } ∧
    onResponderReject s
      = doChildStateChange s { s.childState with status := ChildStatus.OTHER } ∧
    (onResponderTerminate s).pending = s.pending ∧
    (onResponderReject s).pending = s.pending := by
  have hsc := doChildStateChange_scaleTarget s
    { s.childState with status := ChildStatus.OTHER }
  refine ⟨?_, ?_, ?_, ?_, ?_, rfl, rfl, ?_, ?_⟩
  · simp only [onResponderRelease]
    split
    · rw [doChildReset_childState, doChildStateChange_childState]
    · rw [doChildStateChange_childState]
  · unfold onResponderTerminate
    rw [doChildStateChange_childState]
  · unfold onResponderReject
    rw [doChildStateChange_childState]
  · intro h
    simp only [onResponderRelease]
    rw [if_pos (by rw [hsc]; exact h)]
  · intro h
    simp only [onResponderRelease]
    rw [if_neg (by rw [hsc]; exact h)]
  · unfold onResponderTerminate
    rw [doChildStateChange_pending]
  · unfold onResponderReject
    rw [doChildStateChange_pending]

/-- Witness for C6: releasing at the neutral target (scale 1 lies inside the
reset window) invokes the animated reset. -/
theorem claim6_witness :
    (MIN_ZOOM_RESET < (initialState 300 300).scaleTarget ∧
      (initialState 300 300).scaleTarget < MAX_ZOOM_RESET) ∧
    onResponderRelease (initialState 300 300)
      = doChildReset
          (doChildStateChange (initialState 300 300)
            { (initialState 300 300).childState with status := ChildStatus.OTHER })
          SOFT_ANIMIATION_TIME :=
  ⟨by norm_num [initialState, MIN_ZOOM_RESET, MAX_ZOOM_RESET],
    (claim6_lifecycle (initialState 300 300)).2.2.2.1
      (by norm_num [initialState, MIN_ZOOM_RESET, MAX_ZOOM_RESET])⟩

/-- Claim C7 (amended): the move, start-capture and move-capture predicates
claim the gesture exactly when zoom is in progress or more than one touch is
present, the termination-request predicate returns the negation of that
condition, and these four are pure; the start predicate instead returns
"zoom in progress" alone, ignoring the touch count, and is impure: it always
forces the gesture state to Other, and on a single-touch event while not
zooming it first runs the touch-start handler. -/
theorem claim7_predicates (s : SwState) (ev : TouchEvent) :
    onMoveShouldSetResponder s ev
      = (s, s.childDoingZoom || decide (ev.touches.length > 1)) ∧
    onStartShouldSetResponderCapture s ev
      = (s, s.childDoingZoom || decide (ev.touches.length > 1)) ∧
    onMoveShouldSetResponderCapture s ev
      = (s, s.childDoingZoom || decide (ev.touches.length > 1)) ∧
    (onResponderTerminationRequest s ev).2 = !(onMoveShouldSetResponder s ev).2 ∧
    (onResponderTerminationRequest s ev).1 = s ∧
    (onStartShouldSetResponder s ev).2 = s.childDoingZoom ∧
    (s.childDoingZoom = true →
      (onStartShouldSetResponder s ev).1
        = doChildStateChange s { s.childState with status := ChildStatus.OTHER }) ∧
    (s.childDoingZoom = false → ev.touches.length = 1 →
      (onStartShouldSetResponder s ev).1
        = doChildStateChange (onStartTouchResponder s ev)
            { (onStartTouchResponder s ev).childState with
              status := ChildStatus.OTHER }) := by
  refine ⟨rfl, rfl, rfl, rfl, rfl, rfl, ?_, ?_⟩
  · intro hz
    simp [onStartShouldSetResponder, hz]
  · intro hz hlen
    simp [onStartShouldSetResponder, hz, hlen]

/-- A state with zoom in progress, used to witness the start predicate. -/
def stateC7 : SwState := { initialState 300 300 with childDoingZoom := true }

/-- Witness for C7 while zoom is in progress: the start predicate only forces
the gesture state to Other. -/
theorem claim7_witness :
    stateC7.childDoingZoom = true ∧
    (onStartShouldSetResponder stateC7
        { timeStamp := 0, pageX := 0, pageY := 0, touches := [] }).1
      = doChildStateChange stateC7 { stateC7.childState with status := ChildStatus.OTHER } :=
  ⟨rfl,
    (claim7_predicates stateC7
      { timeStamp := 0, pageX := 0, pageY := 0, touches := [] }).2.2.2.2.2.2.1 rfl⟩

/-- Double-tap zoom from the neutral target: a tap inside the viewport takes
the target to scale `DEFAULT_ZOOM` with translation equal to the
center-relative tap offset times `(1 - DEFAULT_ZOOM)`. -/
theorem doChildDoubleTouch_notZoom (s : SwState) (p : Position) (td : ℚ)
    (hz : s.childDoingZoom = false) (h1 : s.scaleTarget = 1)
    (h0 : s.transformBase = ⟨0, 0⟩)
    (hpx : |p.x - s.viewPortW / 2| ≤ s.viewPortW / 2)
    (hpy : |p.y - s.viewPortH / 2| ≤ s.viewPortH / 2) :
    (doChildDoubleTouch s p td).scaleTarget = DEFAULT_ZOOM ∧
    (doChildDoubleTouch s p td).transformBase
      = positionMult (getCenterDisposition s p) (1 - DEFAULT_ZOOM) := by
  have hstep : doChildDoubleTouch s p td
      = doChildAnimation
          (doChangeScale s ⟨0, 0⟩ DEFAULT_ZOOM (some (getCenterDisposition s p)))
          SOFT_ANIMIATION_TIME Callback.nop true := by
    simp only [doChildDoubleTouch]
    rw [if_pos hz]
  obtain ⟨hsc, hbx, hby⟩ := doChildAnimation_run
    (doChangeScale s ⟨0, 0⟩ DEFAULT_ZOOM (some (getCenterDisposition s p)))
    SOFT_ANIMIATION_TIME Callback.nop true (by simp)
  have hcs : (doChangeScale s ⟨0, 0⟩ DEFAULT_ZOOM
      (some (getCenterDisposition s p))).scaleTarget = 2 := by
    simp [doChangeScale, h1, DEFAULT_ZOOM]
  have hclamp : max (min (doChangeScale s ⟨0, 0⟩ DEFAULT_ZOOM
      (some (getCenterDisposition s p))).scaleTarget MAX_ZOOM) MIN_ZOOM = 2 := by
    rw [hcs]; norm_num [MAX_ZOOM, MIN_ZOOM]
  have hvw : (doChangeScale s ⟨0, 0⟩ DEFAULT_ZOOM
      (some (getCenterDisposition s p))).viewPortW = s.viewPortW := rfl
  have hvh : (doChangeScale s ⟨0, 0⟩ DEFAULT_ZOOM
      (some (getCenterDisposition s p))).viewPortH = s.viewPortH := rfl
  have htx : (doChangeScale s ⟨0, 0⟩ DEFAULT_ZOOM
      (some (getCenterDisposition s p))).transformBase.x
      = -(p.x - s.viewPortW / 2) := by
    simp only [doChangeScale, positionMult, getCenterDisposition, centerPosition, h0,
      DEFAULT_ZOOM]
    ring
  have hty : (doChangeScale s ⟨0, 0⟩ DEFAULT_ZOOM
      (some (getCenterDisposition s p))).transformBase.y
      = -(p.y - s.viewPortH / 2) := by
    simp only [doChangeScale, positionMult, getCenterDisposition, centerPosition, h0,
      DEFAULT_ZOOM]
    ring
  have hsc2 : (doChildDoubleTouch s p td).scaleTarget = 2 := by
    rw [hstep, hsc, hclamp]
  have hbw : s.viewPortW * |1 - (2 : ℚ)| / 2 = s.viewPortW / 2 := by
    rw [show |1 - (2 : ℚ)| = 1 by norm_num]
    ring
  have hbh : s.viewPortH * |1 - (2 : ℚ)| / 2 = s.viewPortH / 2 := by
    rw [show |1 - (2 : ℚ)| = 1 by norm_num]
    ring
  have hx3 : (doChildDoubleTouch s p td).transformBase.x
      = -(p.x - s.viewPortW / 2) := by
    rw [hstep, hbx, hclamp, hvw, htx, hbw]
    exact clamp_eq_self (by rwa [abs_neg])
  have hy3 : (doChildDoubleTouch s p td).transformBase.y
      = -(p.y - s.viewPortH / 2) := by
    rw [hstep, hby, hclamp, hvh, hty, hbh]
    exact clamp_eq_self (by rwa [abs_neg])
  refine ⟨hsc2.trans (by norm_num [DEFAULT_ZOOM]), positionExt ?_ ?_⟩
  · rw [hx3]
    simp only [positionMult, getCenterDisposition, centerPosition, DEFAULT_ZOOM]
    ring
  · rw [hy3]
    simp only [positionMult, getCenterDisposition, centerPosition, DEFAULT_ZOOM]
    ring

/-- Claim C4: a single-finger touch-down within `DOUBLE_TOUCH_THRES` of the
recorded last touch while the gesture state is not SingleTouch clears
`lastTouch` and takes the double-tap shortcut instead of starting a drag;
from the Idle target (zoom not in progress, scale 1, translation 0, tap
inside the viewport) the shortcut sets target scale `DEFAULT_ZOOM = 2` and
translation `pivot * (1 - 2)`, and with zoom already in progress it invokes
the animated reset instead. -/
theorem claim4_doubleTap (s : SwState) (ev : TouchEvent)
    (hdt : ev.timeStamp - s.childState.lastTouch < DOUBLE_TOUCH_THRES)
    (hst : ¬s.childState.status = ChildStatus.SINGLE) :
    onStartTouchResponder s ev
      = doChildDoubleTouch { s with childState := { s.childState with lastTouch := 0 } }
          ⟨ev.pageX - s.absoluteX, ev.pageY - s.absoluteY⟩
          (ev.timeStamp - s.childState.lastTouch) ∧
    (onStartTouchResponder s ev).childState.lastTouch = 0 ∧
    (s.childDoingZoom = false → s.scaleTarget = 1 → s.transformBase = ⟨0, 0⟩ →
      |ev.pageX - s.absoluteX - s.viewPortW / 2| ≤ s.viewPortW / 2 →
      |ev.pageY - s.absoluteY - s.viewPortH / 2| ≤ s.viewPortH / 2 →
      (onStartTouchResponder s ev).scaleTarget = DEFAULT_ZOOM ∧
      (onStartTouchResponder s ev).transformBase
        = positionMult
            (getCenterDisposition s ⟨ev.pageX - s.absoluteX, ev.pageY - s.absoluteY⟩)
            (1 - DEFAULT_ZOOM)) ∧
    (s.childDoingZoom = true →
      onStartTouchResponder s ev
        = doChildReset { s with childState := { s.childState with lastTouch := 0 } }
            SOFT_ANIMIATION_TIME) := by
  have hmain : onStartTouchResponder s ev
      = doChildDoubleTouch { s with childState := { s.childState with lastTouch := 0 } }
          ⟨ev.pageX - s.absoluteX, ev.pageY - s.absoluteY⟩
          (ev.timeStamp - s.childState.lastTouch) := by
    simp only [onStartTouchResponder]
    rw [if_pos hdt, if_pos hst]
  refine ⟨hmain, ?_, ?_, ?_⟩
  · rw [hmain, doChildDoubleTouch_childState]
  · intro hz h1 h0 hpx hpy
    rw [hmain]
    exact doChildDoubleTouch_notZoom _ _ _ hz h1 h0 hpx hpy
  · intro hz
    rw [hmain]
    simp [doChildDoubleTouch, hz]

/-- Witness for C4, the spec scenario: with `lastTouch = 100`, a second tap at
time 200 and point `(200, 150)` — 50 px right of the center of a 300x300
viewport — yields target scale 2 and translation `(-50, 0)`. -/
theorem claim4_witness :
    (onStartTouchResponder
        { initialState 300 300 with
          childState := { status := ChildStatus.OTHER, lastTouch := 100 } }
        { timeStamp := 200, pageX := 200, pageY := 150, touches := [⟨200, 150⟩] }).scaleTarget
      = DEFAULT_ZOOM ∧
    (onStartTouchResponder
        { initialState 300 300 with
          childState := { status := ChildStatus.OTHER, lastTouch := 100 } }
        { timeStamp := 200, pageX := 200, pageY := 150, touches := [⟨200, 150⟩] }).transformBase
      = ⟨-50, 0⟩ := by
  have h := (claim4_doubleTap
      { initialState 300 300 with
        childState := { status := ChildStatus.OTHER, lastTouch := 100 } }
      { timeStamp := 200, pageX := 200, pageY := 150, touches := [⟨200, 150⟩] }
      (by norm_num [initialState, DOUBLE_TOUCH_THRES])
      (by decide)).2.2.1
      rfl rfl rfl
      (by norm_num [initialState]) (by norm_num [initialState])
  refine ⟨h.1, h.2.trans ?_⟩
  norm_num [positionMult, getCenterDisposition, centerPosition, initialState, DEFAULT_ZOOM]

end SwiperZoom
